import Mathlib

/-!
Verification of the SVG module drawers of a QR-code renderer
(`qrcode/image/styles/moduledrawers/svg.py`).

The drawers convert one grid cell at a time into an SVG primitive
(rect / circle / path / polygon), selected from the cell's own activity
and the activity of its four orthogonal neighbours.  Decimal arithmetic
in the source is exact, so it is embedded here as rational arithmetic.
-/

namespace QRSvg

/-- One token of an SVG path `d` string, as assembled by the drawers'
format strings (`M`/`H`/`V`/`L`/`A`/`C`/`Z`). -/
inductive PathTok where
  | M (x y : ℚ)
  | H (x : ℚ)
  | V (y : ℚ)
  | L (x y : ℚ)
  | A (rx ry : ℚ) (rot large sweep : ℕ) (x y : ℚ)
  | C (x1 y1 x2 y2 x y : ℚ)
  | Z
  deriving DecidableEq, Repr

/-- An emitted SVG element (`ET.Element` in the source), carrying its tag
and geometric attributes.  `pathFragment` is the bare subpath string
appended by the `SvgPath*` drawers. -/
inductive Element where
  | path (d : List PathTok) (fill : String)
  | circle (cx cy r : ℚ) (fill : String)
  | rect (x y width height : ℚ) (rx ry : Option ℚ) (fill : String)
  | polygon (points : List (ℚ × ℚ)) (width height x y : ℚ) (fill : String)
      (rotate : ℕ) (cx cy : ℚ)
  | pathFragment (d : List PathTok)
  deriving DecidableEq, Repr

/-- The SVG tag of an element. -/
def Element.tag : Element → String
  | .path _ _ => "path"
  | .circle _ _ _ _ => "circle"
  | .rect _ _ _ _ _ _ _ => "rect"
  | .polygon _ _ _ _ _ _ _ _ _ => "polygon"
  | .pathFragment _ => "pathFragment"

/-- The rotation angle of the `transform="rotate(...)"` attribute, when
the element carries one. -/
def rotationOf : Option Element → Option ℕ
  | some (.polygon _ _ _ _ _ _ r _ _) => some r
  | _ => none

/-- Modelled from the spec: the neighbour context is the 4-tuple of
booleans (N, S, E, W) supplied by the grid collaborator, together with
the cell's own activity `me`; the Python truthiness of the context
(`if not is_active:`) is the cell's own activity. -/
structure ActiveWithNeighbors where
  me : Bool
  N : Bool
  S : Bool
  E : Bool
  W : Bool
  deriving DecidableEq, Repr

/-- The image parameters read by the drawers: `img.box_size` (pixel size
of one cell), `img.border` (border width in cells), `img.pixel_size`
(total rendered width in pixels) and `img.front_color`. -/
structure SvgImage where
  box_size : ℕ
  border : ℕ
  pixel_size : ℤ
  front_color : String
  deriving DecidableEq, Repr

/-- Modelled from the spec: primitives carry their geometric parameters
in the same length units as the input, so the external `img.units`
conversion is the identity in those units. -/
def units (v : ℚ) : ℚ := v

/-- The per-render constants computed by `BaseSvgQRModuleDrawer`
(`size_ratio` from `__init__`; `box_delta`, `box_size`, `box_half` and
the resolved `fill_color` from `initialize`). -/
structure DrawerState where
  size_ratio : ℚ
  box_delta : ℚ
  box_size : ℚ
  box_half : ℚ
  fill_color : String
  deriving DecidableEq, Repr

/-- `BaseSvgQRModuleDrawer.__init__` followed by `initialize`:
`box_delta = (1 - size_ratio) * img.box_size / 2`,
`box_size = img.box_size * size_ratio`, `box_half = box_size / 2`,
and `fill_color` defaults to `img.front_color` when not supplied. -/
def initState (size_ratio : ℚ) (fillOpt : Option String) (img : SvgImage) : DrawerState :=
  { size_ratio := size_ratio
    box_delta := (1 - size_ratio) * (img.box_size : ℚ) / 2
    box_size := (img.box_size : ℚ) * size_ratio
    box_half := (img.box_size : ℚ) * size_ratio / 2
    fill_color := match fillOpt with | some c => c | none => img.front_color }

/-- The 6-tuple returned by `BaseSvgQRModuleDrawer.coords`. -/
structure Coords where
  x0 : ℚ
  y0 : ℚ
  x1 : ℚ
  y1 : ℚ
  xh : ℚ
  yh : ℚ
  deriving DecidableEq, Repr

/-- `BaseSvgQRModuleDrawer.coords`: the box argument's first entry is the
`(row, col)` pixel origin of the cell. -/
def coords (st : DrawerState) (box : ℤ × ℤ) : Coords :=
  let x : ℚ := (box.1 : ℚ) + st.box_delta
  let y : ℚ := (box.2 : ℚ) + st.box_delta
  ⟨x, y, x + st.box_size, y + st.box_size, x + st.box_half, y + st.box_half⟩

/-- `BaseSvgQRModuleDrawer.is_eye_center`, with Python's chained
comparisons and `and`/`or` precedence made explicit. -/
def is_eye_center (img : SvgImage) (row col : ℤ) : Bool :=
  let border_width : ℤ := (img.border : ℤ) * (img.box_size : ℤ)
  let inner_limit : ℤ := border_width + (img.box_size : ℤ) * 4 + (img.box_size : ℤ)
  let image_width : ℤ := img.pixel_size
  (decide (border_width + (img.box_size : ℤ) < row) && decide (row < inner_limit)
      && decide (border_width + (img.box_size : ℤ) < col) && decide (col < inner_limit))
    || (decide (border_width + (img.box_size : ℤ) < row) && decide (row < inner_limit)
      && decide (image_width - inner_limit ≤ col)
      && decide (col < image_width - border_width - (img.box_size : ℤ) * 2))
    || (decide (image_width - inner_limit ≤ row)
      && decide (row < image_width - border_width - (img.box_size : ℤ) * 2)
      && decide (border_width + (img.box_size : ℤ) < col) && decide (col < inner_limit))

/-- Modelled from the spec: each finder pattern is 7×7 cells with its
3×3 centre at a 2-cell offset, so the centre pixels of the near corner
span `[border + 2·cell, border + 5·cell)` and those of a far corner span
`[width − border − 5·cell, width − border − 2·cell)`; the three corners
tested are top-left, top-right and bottom-left. -/
def inEyeCenter3x3 (img : SvgImage) (row col : ℤ) : Bool :=
  let bw : ℤ := (img.border : ℤ) * (img.box_size : ℤ)
  let bs : ℤ := (img.box_size : ℤ)
  let iw : ℤ := img.pixel_size
  let near : ℤ → Bool := fun x => decide (bw + 2 * bs ≤ x) && decide (x < bw + 5 * bs)
  let far : ℤ → Bool := fun x => decide (iw - bw - 5 * bs ≤ x) && decide (x < iw - bw - 2 * bs)
  (near row && near col) || (near row && far col) || (far row && near col)

/-! ### Neighbour predicates

The bars families derive axis blocks from the drawing-axis pair alone;
the rounded/sharp/heart families additionally require both perpendicular
neighbours inactive. -/

/-- `SvgVerticalBarsDrawer`: `top_block = not N and S`. -/
def barsTopBlock (a : ActiveWithNeighbors) : Bool := !a.N && a.S

/-- `SvgVerticalBarsDrawer`: `bottom_block = not S and N`. -/
def barsBottomBlock (a : ActiveWithNeighbors) : Bool := !a.S && a.N

/-- `SvgHorizontalBarsDrawer`: `left_block = not W and E`. -/
def barsLeftBlock (a : ActiveWithNeighbors) : Bool := !a.W && a.E

/-- `SvgHorizontalBarsDrawer`: `right_block = not E and W`. -/
def barsRightBlock (a : ActiveWithNeighbors) : Bool := !a.E && a.W

/-- Vertical bars `alone`: all four inactive, or the N/S pair inactive. -/
def barsAloneV (a : ActiveWithNeighbors) : Bool :=
  (!a.N && !a.S && !a.E && !a.W) || (!a.N && !a.S)

/-- Horizontal bars `alone`: all four inactive, or the E/W pair inactive. -/
def barsAloneH (a : ActiveWithNeighbors) : Bool :=
  (!a.N && !a.S && !a.E && !a.W) || (!a.W && !a.E)

/-- Rounded/sharp families: `top_block = not N and S and not E and not W`. -/
def strictTopBlock (a : ActiveWithNeighbors) : Bool := !a.N && a.S && !a.E && !a.W

/-- Rounded/sharp families: `bottom_block = not S and N and not E and not W`. -/
def strictBottomBlock (a : ActiveWithNeighbors) : Bool := !a.S && a.N && !a.E && !a.W

/-- Rounded/sharp families: `left_block = not W and E and not N and not S`. -/
def strictLeftBlock (a : ActiveWithNeighbors) : Bool := !a.W && a.E && !a.N && !a.S

/-- Rounded/sharp families: `right_block = not E and W and not N and not S`. -/
def strictRightBlock (a : ActiveWithNeighbors) : Bool := !a.E && a.W && !a.N && !a.S

/-- `top_left_corner = not N and not W`. -/
def cornerTopLeft (a : ActiveWithNeighbors) : Bool := !a.N && !a.W

/-- `top_right_corner = not N and not E`. -/
def cornerTopRight (a : ActiveWithNeighbors) : Bool := !a.N && !a.E

/-- `bottom_left_corner = not S and not W`. -/
def cornerBottomLeft (a : ActiveWithNeighbors) : Bool := !a.S && !a.W

/-- `bottom_right_corner = not S and not E`. -/
def cornerBottomRight (a : ActiveWithNeighbors) : Bool := !a.S && !a.E

/-- `alone = not N and not S and not E and not W` (rounded/sharp families). -/
def aloneAll (a : ActiveWithNeighbors) : Bool := !a.N && !a.S && !a.E && !a.W

/-! ### Drawers

Each `...Drawrect` embeds one drawer's `drawrect` method as a pure
function returning the element appended to the image, or `none` when the
method returns without appending. -/

/-- `SvgSquareDrawer`: one `rect` per active cell. -/
def squareDrawrect (st : DrawerState) (box : ℤ × ℤ) (a : ActiveWithNeighbors) :
    Option Element :=
  cond a.me
    (let c := coords st box
     some (.rect (units c.x0) (units c.y0) (units st.box_size) (units st.box_size)
        none none st.fill_color))
    none

/-- `SvgCircleDrawer`: one `circle` per active cell. -/
def circleDrawrect (st : DrawerState) (box : ℤ × ℤ) (a : ActiveWithNeighbors) :
    Option Element :=
  cond a.me
    (let c := coords st box
     some (.circle (units c.xh) (units c.yh) (units st.box_half) st.fill_color))
    none

/-- `SvgPathSquareDrawer.subpath`: `M{x0},{y0}H{x1}V{y1}H{x0}z`. -/
def pathSquareDrawrect (st : DrawerState) (box : ℤ × ℤ) (a : ActiveWithNeighbors) :
    Option Element :=
  cond a.me
    (let c := coords st box
     let x0 := units c.x0
     let y0 := units c.y0
     let x1 := units c.x1
     let y1 := units c.y1
     some (.pathFragment [.M x0 y0, .H x1, .V y1, .H x0, .Z]))
    none

/-- `SvgPathCircleDrawer.subpath`: two half-circle arcs of radius
`box_half - box_delta`. -/
def pathCircleDrawrect (st : DrawerState) (box : ℤ × ℤ) (a : ActiveWithNeighbors) :
    Option Element :=
  cond a.me
    (let c := coords st box
     let x0 := units c.x0
     let yh := units c.yh
     let h := units (st.box_half - st.box_delta)
     let x1 := units c.x1
     some (.pathFragment [.M x0 yh, .A h h 0 0 0 x1 yh, .A h h 0 0 0 x0 yh, .Z]))
    none

/-- `SvgBlankDrawer.drawrect`: always returns without appending. -/
def blankDrawrect (_st : DrawerState) (_box : ℤ × ℤ) (_a : ActiveWithNeighbors) :
    Option Element :=
  none

/-- `SvgDiamonDrawer`: rhombus through the four edge midpoints. -/
def diamondDrawrect (st : DrawerState) (box : ℤ × ℤ) (a : ActiveWithNeighbors) :
    Option Element :=
  cond a.me
    (let c := coords st box
     let x0 := units c.x0
     let y0 := units c.y0
     let xh := units c.xh
     let yh := units c.yh
     let y1 := units c.y1
     let x1 := units c.x1
     some (.path [.M x0 yh, .L xh y0, .L x1 yh, .L xh y1, .Z] st.fill_color))
    none

/-- `SvgRandomSquareDrawer`: rotated polygon; `rand` is the value drawn
by `random.randint(0, 360)` for this invocation. -/
def randomSquareDrawrect (st : DrawerState) (box : ℤ × ℤ) (a : ActiveWithNeighbors)
    (rand : ℕ) : Option Element :=
  cond a.me
    (let c := coords st box
     let x0 := units c.x0
     let y0 := units c.y0
     let y1 := units c.y1
     let x1 := units c.x1
     let yh := units c.yh
     let xh := units c.xh
     some (.polygon [(x0, yh), (xh, y0), (x1, yh), (xh, y1)]
        (units st.box_size) (units st.box_size) x0 y0 st.fill_color rand xh yh))
    none

/-- `SvgVerticalBarsDrawer.drawrect`.  Its guard tests only the four
neighbours (`not (N or S or E or W)`), never the cell's own activity. -/
def verticalBarsDrawrect (st : DrawerState) (box : ℤ × ℤ) (a : ActiveWithNeighbors) :
    Option Element :=
  cond (a.N || a.S || a.E || a.W)
    (let c := coords st box
     let h := units (st.box_half - st.box_delta)
     let radius := units st.box_half
     let x0 := units c.x0
     let y0 := units c.y0
     let xh := units c.xh
     let yh := units c.yh
     let x1 := units c.x1
     let y1 := units c.y1
     let el := Element.path [.M x0 y0, .H x1, .V (y1 + h), .H x0, .Z] st.fill_color
     let el := cond (barsTopBlock a)
       (Element.path [.M x0 yh, .A h h 0 0 1 x1 yh, .V (y1 + h), .H x0, .Z] st.fill_color) el
     let el := cond (barsBottomBlock a)
       (Element.path [.M x0 y0, .H x1, .V yh, .A h h 0 0 1 x0 yh, .Z] st.fill_color) el
     let el := cond (barsAloneV a)
       (Element.circle xh yh radius st.fill_color) el
     some el)
    none

/-- `SvgVertical2BarsDrawer.drawrect`. -/
def vertical2BarsDrawrect (st : DrawerState) (box : ℤ × ℤ) (a : ActiveWithNeighbors) :
    Option Element :=
  cond a.me
    (let c := coords st box
     let h := units (st.box_half - st.box_delta)
     let x0 := units c.x0
     let y0 := units c.y0
     let y1 := units c.y1
     let x1 := units c.x1
     let below_block := !a.S
     let el := Element.path [.M x0 y0, .H x1, .V (y1 + h), .H x0, .Z] st.fill_color
     let el := cond below_block
       (Element.path [.M x0 y0, .H x1, .V y1, .H x0, .Z] st.fill_color) el
     let el := cond (barsAloneV a)
       (Element.path [.M x0 y0, .H x1, .V y1, .H x0, .Z] st.fill_color) el
     some el)
    none

/-- `SvgHorizontalBarsDrawer.drawrect`. -/
def horizontalBarsDrawrect (st : DrawerState) (box : ℤ × ℤ) (a : ActiveWithNeighbors) :
    Option Element :=
  cond a.me
    (let c := coords st box
     let h := units (st.box_half - st.box_delta)
     let radius := units st.box_half
     let x0 := units c.x0
     let y0 := units c.y0
     let xh := units c.xh
     let yh := units c.yh
     let y1 := units c.y1
     let x1 := units c.x1
     let el := Element.path [.M x0 y0, .H (x1 + h), .V y1, .H x0, .Z] st.fill_color
     let el := cond (barsLeftBlock a)
       (Element.path [.M xh y0, .H (x1 + h), .V y1, .H x0, .A h h 0 0 1 xh y0, .Z]
         st.fill_color) el
     let el := cond (barsRightBlock a)
       (Element.path [.M x0 y0, .H xh, .A h h 0 0 1 xh y1, .H x0, .Z] st.fill_color) el
     let el := cond (barsAloneH a)
       (Element.circle xh yh radius st.fill_color) el
     some el)
    none

/-- `SvgHorizontal2BarsDrawer.drawrect`. -/
def horizontal2BarsDrawrect (st : DrawerState) (box : ℤ × ℤ) (a : ActiveWithNeighbors) :
    Option Element :=
  cond a.me
    (let c := coords st box
     let h := units (st.box_half - st.box_delta)
     let x0 := units c.x0
     let y0 := units c.y0
     let y1 := units c.y1
     let x1 := units c.x1
     let right_block := !a.E
     let el := Element.path [.M x0 y0, .H (x1 + h), .V y1, .H x0, .Z] st.fill_color
     let el := cond right_block
       (Element.path [.M x0 y0, .H x1, .V y1, .H x0, .Z] st.fill_color) el
     let el := cond (barsAloneH a)
       (Element.path [.M x0 y0, .H x1, .V y1, .H x0, .Z] st.fill_color) el
     some el)
    none

/-- `SvgRoundedDrawer.drawrect`: corners replaced by quarter-circle
arcs, block edges by bulge arcs, isolated cell by a circle.  Note that
here `h` is `units(box_half) - box_delta` (the subtraction happens after
the unit conversion). -/
def roundedDrawrect (st : DrawerState) (box : ℤ × ℤ) (a : ActiveWithNeighbors) :
    Option Element :=
  cond a.me
    (let c := coords st box
     let h := units st.box_half - st.box_delta
     let radius := units st.box_half
     let x0 := units c.x0
     let y0 := units c.y0
     let x1 := units c.x1
     let y1 := units c.y1
     let xh := units c.xh
     let yh := units c.yh
     let corner_r := units st.box_size
     let el := Element.path [.M x0 y0, .H x1, .V y1, .H x0, .Z] st.fill_color
     let el := cond (cornerTopLeft a)
       (Element.path [.M x0 yh, .A corner_r corner_r 0 0 1 x1 y0, .V y1, .H x0, .Z]
         st.fill_color) el
     let el := cond (cornerTopRight a)
       (Element.path [.M x0 y0, .H xh, .A corner_r corner_r 0 0 1 x1 y1, .H x0, .Z]
         st.fill_color) el
     let el := cond (cornerBottomLeft a)
       (Element.path [.M x0 y0, .H x1, .V y1, .H xh, .A corner_r corner_r 0 0 1 x0 y0, .Z]
         st.fill_color) el
     let el := cond (cornerBottomRight a)
       (Element.path [.M x0 y0, .H x1, .V yh, .A corner_r corner_r 0 0 1 xh y1, .H x0, .Z]
         st.fill_color) el
     let el := cond (strictTopBlock a)
       (Element.path [.M x0 yh, .A h h 0 0 1 x1 yh, .V y1, .H x0, .Z] st.fill_color) el
     let el := cond (strictBottomBlock a)
       (Element.path [.M x0 y0, .H x1, .V yh, .A h h 0 0 1 x0 yh, .Z] st.fill_color) el
     let el := cond (strictLeftBlock a)
       (Element.path [.M xh y0, .H x1, .V y1, .H xh, .A h h 0 0 1 xh y0, .Z] st.fill_color) el
     let el := cond (strictRightBlock a)
       (Element.path [.M x0 y0, .H xh, .A h h 0 0 1 xh y1, .H x0, .Z] st.fill_color) el
     let el := cond (aloneAll a)
       (Element.circle xh yh radius st.fill_color) el
     some el)
    none

/-- `SvgRounded2Drawer.drawrect`: as `SvgRoundedDrawer` but the isolated
cell is a `rect` with the hard-coded corner radii `rx="5"`, `ry="5"`. -/
def rounded2Drawrect (st : DrawerState) (box : ℤ × ℤ) (a : ActiveWithNeighbors) :
    Option Element :=
  cond a.me
    (let c := coords st box
     let h := units st.box_half - st.box_delta
     let x0 := units c.x0
     let y0 := units c.y0
     let x1 := units c.x1
     let y1 := units c.y1
     let xh := units c.xh
     let yh := units c.yh
     let corner_r := units st.box_size
     let el := Element.path [.M x0 y0, .H x1, .V y1, .H x0, .Z] st.fill_color
     let el := cond (cornerTopLeft a)
       (Element.path [.M x0 yh, .A corner_r corner_r 0 0 1 x1 y0, .V y1, .H x0, .Z]
         st.fill_color) el
     let el := cond (cornerTopRight a)
       (Element.path [.M x0 y0, .H xh, .A corner_r corner_r 0 0 1 x1 y1, .H x0, .Z]
         st.fill_color) el
     let el := cond (cornerBottomLeft a)
       (Element.path [.M x0 y0, .H x1, .V y1, .H xh, .A corner_r corner_r 0 0 1 x0 y0, .Z]
         st.fill_color) el
     let el := cond (cornerBottomRight a)
       (Element.path [.M x0 y0, .H x1, .V yh, .A corner_r corner_r 0 0 1 xh y1, .H x0, .Z]
         st.fill_color) el
     let el := cond (strictTopBlock a)
       (Element.path [.M x0 yh, .A h h 0 0 1 x1 yh, .V y1, .H x0, .Z] st.fill_color) el
     let el := cond (strictBottomBlock a)
       (Element.path [.M x0 y0, .H x1, .V yh, .A h h 0 0 1 x0 yh, .Z] st.fill_color) el
     let el := cond (strictLeftBlock a)
       (Element.path [.M xh y0, .H x1, .V y1, .H xh, .A h h 0 0 1 xh y0, .Z] st.fill_color) el
     let el := cond (strictRightBlock a)
       (Element.path [.M x0 y0, .H xh, .A h h 0 0 1 xh y1, .H x0, .Z] st.fill_color) el
     let el := cond (aloneAll a)
       (Element.rect x0 y0 (units st.box_size) (units st.box_size)
         (some 5) (some 5) st.fill_color) el
     some el)
    none

/-- `SvgRounded2InvertedDrawer.drawrect`: block edges replaced by
inward (sweep-0) arcs; isolated cell is a plain `rect`. -/
def rounded2InvertedDrawrect (st : DrawerState) (box : ℤ × ℤ) (a : ActiveWithNeighbors) :
    Option Element :=
  cond a.me
    (let c := coords st box
     let h := units st.box_half - st.box_delta
     let x0 := units c.x0
     let y0 := units c.y0
     let x1 := units c.x1
     let y1 := units c.y1
     let el := Element.path [.M x0 y0, .H x1, .V y1, .H x0, .Z] st.fill_color
     let el := cond (strictTopBlock a)
       (Element.path [.M x0 y0, .A h h 0 0 0 x1 y0, .V y1, .H x0, .Z] st.fill_color) el
     let el := cond (strictBottomBlock a)
       (Element.path [.M x0 y0, .H x1, .V y1, .A h h 0 0 0 x0 y1, .Z] st.fill_color) el
     let el := cond (strictLeftBlock a)
       (Element.path [.M x0 y0, .H x1, .V y1, .H x0, .A h h 0 0 0 x0 y0, .Z] st.fill_color) el
     let el := cond (strictRightBlock a)
       (Element.path [.M x0 y0, .H x1, .A h h 0 0 0 x1 y1, .H x0, .Z] st.fill_color) el
     let el := cond (aloneAll a)
       (Element.rect x0 y0 (units st.box_size) (units st.box_size)
         none none st.fill_color) el
     some el)
    none

/-- `SvgRounded2Inverted2Drawer.drawrect`: rounded corners, inverted
block arcs, and the hard-coded `rx="5"`/`ry="5"` rect when isolated. -/
def rounded2Inverted2Drawrect (st : DrawerState) (box : ℤ × ℤ) (a : ActiveWithNeighbors) :
    Option Element :=
  cond a.me
    (let c := coords st box
     let h := units st.box_half - st.box_delta
     let x0 := units c.x0
     let y0 := units c.y0
     let x1 := units c.x1
     let y1 := units c.y1
     let xh := units c.xh
     let yh := units c.yh
     let corner_r := units st.box_size
     let el := Element.path [.M x0 y0, .H x1, .V y1, .H x0, .Z] st.fill_color
     let el := cond (cornerTopLeft a)
       (Element.path [.M x0 yh, .A corner_r corner_r 0 0 1 x1 y0, .V y1, .H x0, .Z]
         st.fill_color) el
     let el := cond (cornerTopRight a)
       (Element.path [.M x0 y0, .H xh, .A corner_r corner_r 0 0 1 x1 y1, .H x0, .Z]
         st.fill_color) el
     let el := cond (cornerBottomLeft a)
       (Element.path [.M x0 y0, .H x1, .V y1, .H xh, .A corner_r corner_r 0 0 1 x0 y0, .Z]
         st.fill_color) el
     let el := cond (cornerBottomRight a)
       (Element.path [.M x0 y0, .H x1, .V yh, .A corner_r corner_r 0 0 1 xh y1, .H x0, .Z]
         st.fill_color) el
     let el := cond (strictTopBlock a)
       (Element.path [.M x0 y0, .A h h 0 0 0 x1 y0, .V y1, .H x0, .Z] st.fill_color) el
     let el := cond (strictBottomBlock a)
       (Element.path [.M x0 y0, .H x1, .V y1, .A h h 0 0 0 x0 y1, .Z] st.fill_color) el
     let el := cond (strictLeftBlock a)
       (Element.path [.M x0 y0, .H x1, .V y1, .H x0, .A h h 0 0 0 x0 y0, .Z] st.fill_color) el
     let el := cond (strictRightBlock a)
       (Element.path [.M x0 y0, .H x1, .A h h 0 0 0 x1 y1, .H x0, .Z] st.fill_color) el
     let el := cond (aloneAll a)
       (Element.rect x0 y0 (units st.box_size) (units st.box_size)
         (some 5) (some 5) st.fill_color) el
     some el)
    none

/-- `SvgSharped2InvertedDrawer.drawrect`: block edges replaced by inward
chevrons; isolated cell is a plain `rect`. -/
def sharped2InvertedDrawrect (st : DrawerState) (box : ℤ × ℤ) (a : ActiveWithNeighbors) :
    Option Element :=
  cond a.me
    (let c := coords st box
     let x0 := units c.x0
     let y0 := units c.y0
     let x1 := units c.x1
     let y1 := units c.y1
     let xh := units c.xh
     let yh := units c.yh
     let el := Element.path [.M x0 y0, .H x1, .V y1, .H x0, .Z] st.fill_color
     let el := cond (strictTopBlock a)
       (Element.path [.M x0 y0, .L xh yh, .L x1 y0, .V y1, .H x0, .Z] st.fill_color) el
     let el := cond (strictBottomBlock a)
       (Element.path [.M x0 y0, .H x1, .V y1, .L xh yh, .L x0 y1, .Z] st.fill_color) el
     let el := cond (strictLeftBlock a)
       (Element.path [.M x0 y0, .H x1, .V y1, .H x0, .L xh yh, .L x0 y0, .Z] st.fill_color) el
     let el := cond (strictRightBlock a)
       (Element.path [.M x0 y0, .H x1, .L xh yh, .L x1 y1, .H x0, .Z] st.fill_color) el
     let el := cond (aloneAll a)
       (Element.rect x0 y0 (units st.box_size) (units st.box_size)
         none none st.fill_color) el
     some el)
    none

/-- `SvgSharped2Inverted2Drawer.drawrect`: rounded corners, inward
chevron blocks, and the hard-coded `rx="5"`/`ry="5"` rect when isolated. -/
def sharped2Inverted2Drawrect (st : DrawerState) (box : ℤ × ℤ) (a : ActiveWithNeighbors) :
    Option Element :=
  cond a.me
    (let c := coords st box
     let corner_r := units st.box_size
     let x0 := units c.x0
     let y0 := units c.y0
     let x1 := units c.x1
     let y1 := units c.y1
     let xh := units c.xh
     let yh := units c.yh
     let el := Element.path [.M x0 y0, .H x1, .V y1, .H x0, .Z] st.fill_color
     let el := cond (cornerTopLeft a)
       (Element.path [.M x0 yh, .A corner_r corner_r 0 0 1 x1 y0, .V y1, .H x0, .Z]
         st.fill_color) el
     let el := cond (cornerTopRight a)
       (Element.path [.M x0 y0, .H xh, .A corner_r corner_r 0 0 1 x1 y1, .H x0, .Z]
         st.fill_color) el
     let el := cond (cornerBottomLeft a)
       (Element.path [.M x0 y0, .H x1, .V y1, .H xh, .A corner_r corner_r 0 0 1 x0 y0, .Z]
         st.fill_color) el
     let el := cond (cornerBottomRight a)
       (Element.path [.M x0 y0, .H x1, .V yh, .A corner_r corner_r 0 0 1 xh y1, .H x0, .Z]
         st.fill_color) el
     let el := cond (strictTopBlock a)
       (Element.path [.M x0 y0, .L xh yh, .L x1 y0, .V y1, .H x0, .Z] st.fill_color) el
     let el := cond (strictBottomBlock a)
       (Element.path [.M x0 y0, .H x1, .V y1, .L xh yh, .L x0 y1, .Z] st.fill_color) el
     let el := cond (strictLeftBlock a)
       (Element.path [.M x0 y0, .H x1, .V y1, .H x0, .L xh yh, .L x0 y0, .Z] st.fill_color) el
     let el := cond (strictRightBlock a)
       (Element.path [.M x0 y0, .H x1, .L xh yh, .L x1 y1, .H x0, .Z] st.fill_color) el
     let el := cond (aloneAll a)
       (Element.rect x0 y0 (units st.box_size) (units st.box_size)
         (some 5) (some 5) st.fill_color) el
     some el)
    none

/-- `SvgSomeHeartDrawer.drawrect`: single-side bulge arcs and a circle
when isolated. -/
def someHeartDrawrect (st : DrawerState) (box : ℤ × ℤ) (a : ActiveWithNeighbors) :
    Option Element :=
  cond a.me
    (let c := coords st box
     let h := units st.box_half - st.box_delta
     let radius := units st.box_half
     let x0 := units c.x0
     let xh := units c.xh
     let y0 := units c.y0
     let y1 := units c.y1
     let yh := units c.yh
     let x1 := units c.x1
     let el := Element.path [.M x0 y0, .H x1, .V y1, .H x0, .Z] st.fill_color
     let el := cond (strictTopBlock a)
       (Element.path [.M x0 yh, .A h h 0 0 1 x1 yh, .V y1, .H x0, .Z] st.fill_color) el
     let el := cond (strictBottomBlock a)
       (Element.path [.M x0 y0, .H x1, .V yh, .A h h 0 0 1 x0 yh, .Z] st.fill_color) el
     let el := cond (strictLeftBlock a)
       (Element.path [.M xh y0, .H x1, .V y1, .H xh, .A h h 0 0 1 xh y0, .Z] st.fill_color) el
     let el := cond (strictRightBlock a)
       (Element.path [.M x0 y0, .H xh, .A h h 0 0 1 xh y1, .H x0, .Z] st.fill_color) el
     let el := cond (aloneAll a)
       (Element.circle xh yh radius st.fill_color) el
     some el)
    none

/-- `SvgSharpedDrawer.drawrect`: single straight chevron per block; no
`alone` branch (an isolated active cell keeps the base rectangle). -/
def sharpedDrawrect (st : DrawerState) (box : ℤ × ℤ) (a : ActiveWithNeighbors) :
    Option Element :=
  cond a.me
    (let c := coords st box
     let x0 := units c.x0
     let y0 := units c.y0
     let y1 := units c.y1
     let x1 := units c.x1
     let xh := units c.xh
     let yh := units c.yh
     let el := Element.path [.M x0 y0, .H x1, .V y1, .H x0, .Z] st.fill_color
     let el := cond (strictTopBlock a)
       (Element.path [.M x0 yh, .L x1 y0, .V y1, .H x0, .Z] st.fill_color) el
     let el := cond (strictBottomBlock a)
       (Element.path [.M x0 y0, .H x1, .V yh, .L x0 y1, .Z] st.fill_color) el
     let el := cond (strictLeftBlock a)
       (Element.path [.M x0 y0, .H x1, .V y1, .H xh, .L xh y0, .Z] st.fill_color) el
     let el := cond (strictRightBlock a)
       (Element.path [.M x0 y0, .H xh, .L x1 y1, .H x0, .Z] st.fill_color) el
     let _ := yh
     some el)
    none

/-- `SvgSharpedRoundedDrawer.drawrect`: rounded corners, single-chevron
blocks, hard-coded `rx="5"`/`ry="5"` rect when isolated.  The bottom-left
corner path repeats `H{x1}` as in the source. -/
def sharpedRoundedDrawrect (st : DrawerState) (box : ℤ × ℤ) (a : ActiveWithNeighbors) :
    Option Element :=
  cond a.me
    (let c := coords st box
     let x0 := units c.x0
     let y0 := units c.y0
     let y1 := units c.y1
     let x1 := units c.x1
     let xh := units c.xh
     let yh := units c.yh
     let corner_r := units st.box_size
     let el := Element.path [.M x0 y0, .H x1, .V y1, .H x0, .Z] st.fill_color
     let el := cond (cornerTopLeft a)
       (Element.path [.M x0 yh, .A corner_r corner_r 0 0 1 x1 y0, .V y1, .H x0, .Z]
         st.fill_color) el
     let el := cond (cornerTopRight a)
       (Element.path [.M x0 y0, .H xh, .A corner_r corner_r 0 0 1 x1 y1, .H x0, .Z]
         st.fill_color) el
     let el := cond (cornerBottomLeft a)
       (Element.path [.M x0 y0, .H x1, .V y1, .H x1, .A corner_r corner_r 0 0 1 x0 y0, .Z]
         st.fill_color) el
     let el := cond (cornerBottomRight a)
       (Element.path [.M x0 y0, .H x1, .V yh, .A corner_r corner_r 0 0 1 xh y1, .H x0, .Z]
         st.fill_color) el
     let el := cond (strictTopBlock a)
       (Element.path [.M x0 yh, .L x1 y0, .V y1, .H x0, .Z] st.fill_color) el
     let el := cond (strictBottomBlock a)
       (Element.path [.M x0 y0, .H x1, .V yh, .L x0 y1, .Z] st.fill_color) el
     let el := cond (strictLeftBlock a)
       (Element.path [.M x0 y0, .H x1, .V y1, .H xh, .L x0 y0, .Z] st.fill_color) el
     let el := cond (strictRightBlock a)
       (Element.path [.M x0 y0, .H xh, .L x1 y1, .H x0, .Z] st.fill_color) el
     let el := cond (aloneAll a)
       (Element.rect x0 y0 (units st.box_size) (units st.box_size)
         (some 5) (some 5) st.fill_color) el
     some el)
    none

/-- `SvgSharpedRounded2Drawer.drawrect`: rounded corners, cubic-Bezier
bulge blocks, circle of radius `h = units(box_half) - box_delta` when
isolated.  `xr0` aliases `x0` as in the source. -/
def sharpedRounded2Drawrect (st : DrawerState) (box : ℤ × ℤ) (a : ActiveWithNeighbors) :
    Option Element :=
  cond a.me
    (let c := coords st box
     let h := units st.box_half - st.box_delta
     let x0 := units c.x0
     let y0 := units c.y0
     let y1 := units c.y1
     let x1 := units c.x1
     let xr0 := units c.x0
     let xh := units c.xh
     let yh := units c.yh
     let corner_r := units st.box_size
     let el := Element.path [.M x0 y0, .H x1, .V y1, .H x0, .Z] st.fill_color
     let el := cond (cornerTopLeft a)
       (Element.path [.M x0 yh, .A corner_r corner_r 0 0 1 x1 y0, .V y1, .H x0, .Z]
         st.fill_color) el
     let el := cond (cornerTopRight a)
       (Element.path [.M x0 y0, .H xh, .A corner_r corner_r 0 0 1 x1 y1, .H x0, .Z]
         st.fill_color) el
     let el := cond (cornerBottomLeft a)
       (Element.path [.M x0 y0, .H x1, .V y1, .H xh, .A corner_r corner_r 0 0 1 xr0 y0, .Z]
         st.fill_color) el
     let el := cond (cornerBottomRight a)
       (Element.path [.M x0 y0, .H x1, .V yh, .A corner_r corner_r 0 0 1 xh y1, .H x0, .Z]
         st.fill_color) el
     let el := cond (strictTopBlock a)
       (Element.path [.M x1 y1, .H x0, .C x0 y0 xh yh x0 y0, .C x0 y0 x1 y0 x1 y1, .Z]
         st.fill_color) el
     let el := cond (strictBottomBlock a)
       (Element.path [.M x0 y0, .H x1, .C x1 y1 xh yh x1 y1, .C x1 y1 x0 y1 x0 y0, .Z]
         st.fill_color) el
     let el := cond (strictLeftBlock a)
       (Element.path [.M x1 y0, .V y1, .C x0 y1 xh yh x0 y1, .C x0 y1 x0 y0 x1 y0, .Z]
         st.fill_color) el
     let el := cond (strictRightBlock a)
       (Element.path [.M x0 y1, .V y0, .C x0 y0 xh yh x1 y0, .C x1 y0 x1 y1 x0 y1, .Z]
         st.fill_color) el
     let el := cond (aloneAll a)
       (Element.circle xh yh h st.fill_color) el
     some el)
    none

/-- `SvgSharped2Drawer.drawrect`: double-chevron blocks; no `alone`
branch. -/
def sharped2Drawrect (st : DrawerState) (box : ℤ × ℤ) (a : ActiveWithNeighbors) :
    Option Element :=
  cond a.me
    (let c := coords st box
     let x0 := units c.x0
     let y0 := units c.y0
     let y1 := units c.y1
     let x1 := units c.x1
     let xh := units c.xh
     let yh := units c.yh
     let el := Element.path [.M x0 y0, .H x1, .V y1, .H x0, .Z] st.fill_color
     let el := cond (strictTopBlock a)
       (Element.path [.M x0 yh, .L xh y0, .L x1 yh, .V y1, .H x0, .Z] st.fill_color) el
     let el := cond (strictBottomBlock a)
       (Element.path [.M x0 y0, .H x1, .V yh, .L xh y1, .L x0 yh, .V y0, .Z] st.fill_color) el
     let el := cond (strictLeftBlock a)
       (Element.path [.M xh y0, .H x1, .V y1, .H xh, .L x0 yh, .L xh y0, .Z] st.fill_color) el
     let el := cond (strictRightBlock a)
       (Element.path [.M x0 y0, .H xh, .L x1 yh, .L xh y1, .H x0, .Z] st.fill_color) el
     some el)
    none

/-- `SvgSharped2DiamondDrawer.drawrect`: chevron corners, double-chevron
blocks, diamond when isolated. -/
def sharped2DiamondDrawrect (st : DrawerState) (box : ℤ × ℤ) (a : ActiveWithNeighbors) :
    Option Element :=
  cond a.me
    (let c := coords st box
     let x0 := units c.x0
     let y0 := units c.y0
     let y1 := units c.y1
     let x1 := units c.x1
     let yh := units c.yh
     let xh := units c.xh
     let el := Element.path [.M x0 y0, .H x1, .V y1, .H x0, .Z] st.fill_color
     let el := cond (cornerTopLeft a)
       (Element.path [.M x0 yh, .L xh y0, .H x1, .V y1, .H x0, .Z] st.fill_color) el
     let el := cond (cornerTopRight a)
       (Element.path [.M x0 y0, .H xh, .L x1 yh, .V y1, .H x0, .Z] st.fill_color) el
     let el := cond (cornerBottomLeft a)
       (Element.path [.M xh y0, .H x1, .V y1, .H xh, .L x0 yh, .V y0, .Z] st.fill_color) el
     let el := cond (cornerBottomRight a)
       (Element.path [.M x0 y0, .H x1, .V yh, .L xh y1, .H x0, .Z] st.fill_color) el
     let el := cond (strictTopBlock a)
       (Element.path [.M x0 yh, .L xh y0, .L x1 yh, .V y1, .H x0, .Z] st.fill_color) el
     let el := cond (strictBottomBlock a)
       (Element.path [.M x0 y0, .H x1, .V yh, .L xh y1, .L x0 yh, .V y0, .Z] st.fill_color) el
     let el := cond (strictLeftBlock a)
       (Element.path [.M xh y0, .H x1, .V y1, .H xh, .L x0 yh, .L xh y0, .Z] st.fill_color) el
     let el := cond (strictRightBlock a)
       (Element.path [.M x0 y0, .H xh, .L x1 yh, .L xh y1, .H x0, .Z] st.fill_color) el
     let el := cond (aloneAll a)
       (Element.path [.M x0 yh, .L xh y0, .L x1 yh, .L xh y1, .Z] st.fill_color) el
     some el)
    none

/-- `SvgSharped2RoundedDrawer.drawrect`: rounded corners, double-chevron
blocks, hard-coded `rx="5"`/`ry="5"` rect when isolated. -/
def sharped2RoundedDrawrect (st : DrawerState) (box : ℤ × ℤ) (a : ActiveWithNeighbors) :
    Option Element :=
  cond a.me
    (let c := coords st box
     let x0 := units c.x0
     let y0 := units c.y0
     let y1 := units c.y1
     let x1 := units c.x1
     let yh := units c.yh
     let xh := units c.xh
     let corner_r := units st.box_size
     let el := Element.path [.M x0 y0, .H x1, .V y1, .H x0, .Z] st.fill_color
     let el := cond (cornerTopLeft a)
       (Element.path [.M x0 yh, .A corner_r corner_r 0 0 1 x1 y0, .V y1, .H x0, .Z]
         st.fill_color) el
     let el := cond (cornerTopRight a)
       (Element.path [.M x0 y0, .H xh, .A corner_r corner_r 0 0 1 x1 y1, .H x0, .Z]
         st.fill_color) el
     let el := cond (cornerBottomLeft a)
       (Element.path [.M x0 y0, .H x1, .V y1, .H xh, .A corner_r corner_r 0 0 1 x0 y0, .Z]
         st.fill_color) el
     let el := cond (cornerBottomRight a)
       (Element.path [.M x0 y0, .H x1, .V yh, .A corner_r corner_r 0 0 1 xh y1, .H x0, .Z]
         st.fill_color) el
     let el := cond (strictTopBlock a)
       (Element.path [.M x0 yh, .L xh y0, .L x1 yh, .V y1, .H x0, .Z] st.fill_color) el
     let el := cond (strictBottomBlock a)
       (Element.path [.M x0 y0, .H x1, .V yh, .L xh y1, .L x0 yh, .V y0, .Z] st.fill_color) el
     let el := cond (strictLeftBlock a)
       (Element.path [.M xh y0, .H x1, .V y1, .H xh, .L x0 yh, .L xh y0, .Z] st.fill_color) el
     let el := cond (strictRightBlock a)
       (Element.path [.M x0 y0, .H xh, .L x1 yh, .L xh y1, .H x0, .Z] st.fill_color) el
     let el := cond (aloneAll a)
       (Element.rect x0 y0 (units st.box_size) (units st.box_size)
         (some 5) (some 5) st.fill_color) el
     some el)
    none

/-- The shape-family registry: one constructor per drawer class. -/
inductive Family where
  | square | circle | pathSquare | pathCircle | blank | diamond | randomSquare
  | verticalBars | vertical2Bars | horizontalBars | horizontal2Bars
  | rounded | rounded2 | rounded2Inverted | rounded2Inverted2
  | sharped2Inverted | sharped2Inverted2 | someHeart
  | sharped | sharpedRounded | sharpedRounded2 | sharped2 | sharped2Diamond
  | sharped2Rounded
  deriving DecidableEq, Repr

/-- One render step: dispatch a cell to the selected family's
`drawrect`.  `rand` is the process-wide random draw consumed only by the
random-square family. -/
def render (f : Family) (st : DrawerState) (box : ℤ × ℤ) (a : ActiveWithNeighbors)
    (rand : ℕ) : Option Element :=
  match f with
  | .square => squareDrawrect st box a
  | .circle => circleDrawrect st box a
  | .pathSquare => pathSquareDrawrect st box a
  | .pathCircle => pathCircleDrawrect st box a
  | .blank => blankDrawrect st box a
  | .diamond => diamondDrawrect st box a
  | .randomSquare => randomSquareDrawrect st box a rand
  | .verticalBars => verticalBarsDrawrect st box a
  | .vertical2Bars => vertical2BarsDrawrect st box a
  | .horizontalBars => horizontalBarsDrawrect st box a
  | .horizontal2Bars => horizontal2BarsDrawrect st box a
  | .rounded => roundedDrawrect st box a
  | .rounded2 => rounded2Drawrect st box a
  | .rounded2Inverted => rounded2InvertedDrawrect st box a
  | .rounded2Inverted2 => rounded2Inverted2Drawrect st box a
  | .sharped2Inverted => sharped2InvertedDrawrect st box a
  | .sharped2Inverted2 => sharped2Inverted2Drawrect st box a
  | .someHeart => someHeartDrawrect st box a
  | .sharped => sharpedDrawrect st box a
  | .sharpedRounded => sharpedRoundedDrawrect st box a
  | .sharpedRounded2 => sharpedRounded2Drawrect st box a
  | .sharped2 => sharped2Drawrect st box a
  | .sharped2Diamond => sharped2DiamondDrawrect st box a
  | .sharped2Rounded => sharped2RoundedDrawrect st box a

/-- Pixel extent of the border: `img.border * img.box_size`. -/
def borderPx (img : SvgImage) : ℤ := (img.border : ℤ) * (img.box_size : ℤ)

/-- `x` lies in the code's near-corner band of `is_eye_center`:
strictly between `border + cell` and `border + 5·cell` pixels. -/
def nearBand (img : SvgImage) (x : ℤ) : Prop :=
  borderPx img + (img.box_size : ℤ) < x ∧ x < borderPx img + 5 * (img.box_size : ℤ)

/-- `x` lies in the code's far-corner range of `is_eye_center`:
`width − border − 5·cell ≤ x < width − border − 2·cell`. -/
def farBand (img : SvgImage) (x : ℤ) : Prop :=
  img.pixel_size - borderPx img - 5 * (img.box_size : ℤ) ≤ x ∧
    x < img.pixel_size - borderPx img - 2 * (img.box_size : ℤ)

/-- The rounded-corner rectangle emitted for an isolated cell by the
rounded-2 / inverted-2 / sharp-rounded families: corner radii are the
hard-coded constants `rx="5"`, `ry="5"`. -/
def aloneRoundedRect (st : DrawerState) (box : ℤ × ℤ) : Element :=
  .rect (units (coords st box).x0) (units (coords st box).y0)
    (units st.box_size) (units st.box_size) (some 5) (some 5) st.fill_color

/-! ### Concrete instances used by witnesses and counterexamples -/

/-- A version-1 style image: 10-pixel cells, 4-cell border, 290-pixel
total width `((21 + 2·4) · 10)`. -/
def imgEx : SvgImage := ⟨10, 4, 290, "black"⟩

/-- A small-cell image: 8-pixel cells (below the 10-unit threshold). -/
def imgSmall : SvgImage := ⟨8, 4, 232, "black"⟩

/-- Drawer state for `imgEx` with the default `size_ratio = 1`. -/
def stEx : DrawerState := initState 1 none imgEx

/-- The cell whose pixel origin is `(0, 0)`. -/
def boxEx : ℤ × ℤ := ((0 : ℤ), (0 : ℤ))

/-- An active cell with all four neighbours inactive. -/
def aIsolated : ActiveWithNeighbors := ⟨true, false, false, false, false⟩

/-- An inactive cell whose north neighbour is active. -/
def aInactiveNorth : ActiveWithNeighbors := ⟨false, true, false, false, false⟩

/-- An active cell with south and east neighbours active (north and
west inactive). -/
def aSouthEast : ActiveWithNeighbors := ⟨true, false, true, true, false⟩

/-- An active cell whose only active neighbour is south. -/
def aSouthOnly : ActiveWithNeighbors := ⟨true, false, true, false, false⟩

/-! ### Claims -/

/-- C1: the claim says every drawer emits nothing for an inactive cell.
`SvgVerticalBarsDrawer.drawrect` instead guards only on the four
neighbours, so an inactive cell with an active north neighbour emits a
primitive. -/
theorem verticalBars_emits_for_inactive_cell :
    (verticalBarsDrawrect stEx boxEx aInactiveNorth).isSome = true := by decide

/-- C2 counterexample: the claim says the 2-bar variants emit a circle
for an isolated active cell; `SvgVertical2BarsDrawer` emits a `path`
(an axis-aligned square), not a circle. -/
theorem vertical2Bars_isolated_not_circle :
    (vertical2BarsDrawrect stEx boxEx aIsolated).map Element.tag = some "path" ∧
    (vertical2BarsDrawrect stEx boxEx aIsolated).map Element.tag ≠ some "circle" := by
  decide

/-- C2 amended: for the plain bars families an axis-isolated active cell
emits the circle centred at `(xh, yh)` with radius `box_half` — except
that the vertical-bars family emits nothing when all four neighbours are
inactive (its guard tests only the neighbours); the 2-bar variants emit
an axis-aligned square `path` instead of a circle. -/
theorem bars_alone_behavior (st : DrawerState) (box : ℤ × ℤ) :
    (∀ a : ActiveWithNeighbors, a.N = false → a.S = false → a.E = false → a.W = false →
        verticalBarsDrawrect st box a = none) ∧
    (∀ a : ActiveWithNeighbors, a.N = false → a.S = false → (a.E = true ∨ a.W = true) →
        verticalBarsDrawrect st box a =
          some (.circle (units (coords st box).xh) (units (coords st box).yh)
            (units st.box_half) st.fill_color)) ∧
    (∀ a : ActiveWithNeighbors, a.me = true → a.W = false → a.E = false →
        horizontalBarsDrawrect st box a =
          some (.circle (units (coords st box).xh) (units (coords st box).yh)
            (units st.box_half) st.fill_color)) ∧
    (∀ a : ActiveWithNeighbors, a.me = true → a.N = false → a.S = false →
        vertical2BarsDrawrect st box a =
          some (.path [.M (units (coords st box).x0) (units (coords st box).y0),
            .H (units (coords st box).x1), .V (units (coords st box).y1),
            .H (units (coords st box).x0), .Z] st.fill_color)) ∧
    (∀ a : ActiveWithNeighbors, a.me = true → a.W = false → a.E = false →
        horizontal2BarsDrawrect st box a =
          some (.path [.M (units (coords st box).x0) (units (coords st box).y0),
            .H (units (coords st box).x1), .V (units (coords st box).y1),
            .H (units (coords st box).x0), .Z] st.fill_color)) := by
  refine ⟨?_, ?_, ?_, ?_, ?_⟩
  · rintro ⟨me, N, S, E, W⟩ hN hS hE hW
    simp only at hN hS hE hW
    subst hN; subst hS; subst hE; subst hW; rfl
  · rintro ⟨me, N, S, E, W⟩ hN hS hEW
    simp only at hN hS
    subst hN; subst hS
    rcases hEW with hE | hW
    · simp only at hE; subst hE; cases W <;> rfl
    · simp only at hW; subst hW; cases E <;> rfl
  · rintro ⟨me, N, S, E, W⟩ hme hW hE
    simp only at hme hW hE
    subst hme; subst hW; subst hE; cases N <;> cases S <;> rfl
  · rintro ⟨me, N, S, E, W⟩ hme hN hS
    simp only at hme hN hS
    subst hme; subst hN; subst hS; cases E <;> cases W <;> rfl
  · rintro ⟨me, N, S, E, W⟩ hme hW hE
    simp only at hme hW hE
    subst hme; subst hW; subst hE; cases N <;> cases S <;> rfl

/-- C2 witness: an active cell with only an east neighbour renders as
the circle under the vertical-bars family. -/
theorem bars_alone_behavior_witness :
    verticalBarsDrawrect stEx boxEx ⟨true, false, false, true, false⟩ =
      some (.circle (units (coords stEx boxEx).xh) (units (coords stEx boxEx).yh)
        (units stEx.box_half) stEx.fill_color) :=
  (bars_alone_behavior stEx boxEx).2.1 ⟨true, false, false, true, false⟩ rfl rfl (Or.inl rfl)

/-- C3: the claim says every neighbour-aware family appends exactly one
primitive for an active cell in each of the 16 neighbour combinations.
`SvgVerticalBarsDrawer.drawrect` returns early on an active cell with
all four neighbours inactive (its guard tests only the neighbours), so
zero primitives are appended and its own `alone` circle branch is
unreachable there. -/
theorem verticalBars_isolated_active_emits_nothing :
    verticalBarsDrawrect stEx boxEx aIsolated = none := by rfl

/-- C4 counterexample: the claim says no primitive is ever emitted under
an invalid `size_ratio`; with `size_ratio = 2` the square drawer happily
emits one. -/
theorem invalid_size_ratio_still_emits :
    (squareDrawrect (initState 2 none imgEx) boxEx aIsolated).isSome = true := by decide

/-- C4 amended: no `size_ratio` validation exists — `__init__` and
`initialize` accept any value, and rendering emits primitives as usual
even when `size_ratio ≤ 0` or `size_ratio > 1`. -/
theorem no_size_ratio_validation (r : ℚ) (fc : Option String) (img : SvgImage)
    (box : ℤ × ℤ) (a : ActiveWithNeighbors) (hinv : r ≤ 0 ∨ 1 < r) (hme : a.me = true) :
    (squareDrawrect (initState r fc img) box a).isSome = true := by
  rcases a with ⟨me, N, S, E, W⟩
  simp only at hme
  subst hme; rfl

/-- C4 witness: `size_ratio = 2` is invalid, yet a primitive is emitted. -/
theorem no_size_ratio_validation_witness :
    (squareDrawrect (initState 2 none imgSmall) boxEx aIsolated).isSome = true :=
  no_size_ratio_validation 2 none imgSmall boxEx aIsolated (Or.inr (by norm_num)) rfl

/-- C5: `coords` returns the 6-tuple
`(row + δ, col + δ, x0 + s, y0 + s, x0 + s/2, y0 + s/2)` with
`δ = (1 − size_ratio) · cell / 2` and `s = cell · size_ratio`, exactly as
the spec states (exact rational arithmetic models the exact decimal
arithmetic of the source). -/
theorem coords_formula (r : ℚ) (fc : Option String) (img : SvgImage) (box : ℤ × ℤ)
    (h0 : 0 < r) (h1 : r ≤ 1) :
    coords (initState r fc img) box =
      ⟨(box.1 : ℚ) + (1 - r) * (img.box_size : ℚ) / 2,
       (box.2 : ℚ) + (1 - r) * (img.box_size : ℚ) / 2,
       ((box.1 : ℚ) + (1 - r) * (img.box_size : ℚ) / 2) + (img.box_size : ℚ) * r,
       ((box.2 : ℚ) + (1 - r) * (img.box_size : ℚ) / 2) + (img.box_size : ℚ) * r,
       ((box.1 : ℚ) + (1 - r) * (img.box_size : ℚ) / 2) + (img.box_size : ℚ) * r / 2,
       ((box.2 : ℚ) + (1 - r) * (img.box_size : ℚ) / 2) + (img.box_size : ℚ) * r / 2⟩ :=
  rfl

/-- C5 witness: at `size_ratio = 1/2` on a 10-pixel cell at the origin,
the inset box is `(5/2, 5/2)–(15/2, 15/2)` with centre `(5, 5)`. -/
theorem coords_formula_witness :
    coords (initState (1/2) none imgEx) boxEx = ⟨5/2, 5/2, 15/2, 15/2, 5, 5⟩ := by
  have h := coords_formula (1/2) none imgEx boxEx (by norm_num) (by norm_num)
  rw [h]
  norm_num [imgEx, boxEx]

/-- C6 counterexample: the claim says `top_block` holds exactly when N
is inactive and S is active, with no condition on the perpendicular
neighbours.  In the rounded family, with N inactive, S active and E
active, `top_block` is false and the drawer selects the top-left-corner
arc instead. -/
theorem rounded_top_block_needs_clear_sides :
    strictTopBlock aSouthEast = false ∧ aSouthEast.N = false ∧ aSouthEast.S = true ∧
    roundedDrawrect stEx boxEx aSouthEast =
      some (.path [.M 0 5, .A 10 10 0 0 1 10 0, .V 10, .H 0, .Z] "black") := by
  refine ⟨by decide, by decide, by decide, ?_⟩
  norm_num [roundedDrawrect, stEx, imgEx, boxEx, initState, coords, units, cornerTopLeft,
    cornerTopRight, cornerBottomLeft, cornerBottomRight, strictTopBlock, strictBottomBlock,
    strictLeftBlock, strictRightBlock, aloneAll, aSouthEast, cond]

/-- C6 amended: the bars families derive each axis-block predicate from
the drawing-axis pair alone (`top_block ↔ N inactive ∧ S active`, and
symmetrically), while the rounded/sharp/heart families additionally
require both perpendicular neighbours inactive. -/
theorem block_predicate_characterization (a : ActiveWithNeighbors) :
    (barsTopBlock a = true ↔ (a.N = false ∧ a.S = true)) ∧
    (barsBottomBlock a = true ↔ (a.S = false ∧ a.N = true)) ∧
    (barsLeftBlock a = true ↔ (a.W = false ∧ a.E = true)) ∧
    (barsRightBlock a = true ↔ (a.E = false ∧ a.W = true)) ∧
    (strictTopBlock a = true ↔ (a.N = false ∧ a.S = true ∧ a.E = false ∧ a.W = false)) ∧
    (strictBottomBlock a = true ↔ (a.S = false ∧ a.N = true ∧ a.E = false ∧ a.W = false)) ∧
    (strictLeftBlock a = true ↔ (a.W = false ∧ a.E = true ∧ a.N = false ∧ a.S = false)) ∧
    (strictRightBlock a = true ↔ (a.E = false ∧ a.W = true ∧ a.N = false ∧ a.S = false)) := by
  rcases a with ⟨me, N, S, E, W⟩
  cases N <;> cases S <;> cases E <;> cases W <;> cases me <;> decide

/-- C6 witness: a lone south neighbour makes the bars `top_block` fire. -/
theorem block_predicate_characterization_witness :
    barsTopBlock aSouthOnly = true :=
  (block_predicate_characterization aSouthOnly).1.mpr ⟨rfl, rfl⟩

/-- C7 counterexample: the claim says `is_eye_center` is true exactly on
the inner 3×3-cell centre regions.  With 10-pixel cells and a 4-cell
border, pixel `(55, 55)` lies in the light ring of the top-left finder
pattern, outside its 3×3 centre (which starts at pixel 60), yet
`is_eye_center` reports true. -/
theorem eye_center_beyond_3x3 :
    is_eye_center imgEx 55 55 = true ∧ inEyeCenter3x3 imgEx 55 55 = false := by decide

/-- C7 amended: `is_eye_center` is true exactly when the pixel lies in
one of three regions built from a near band (strictly between
`border + cell` and `border + 5·cell`) and a far range
(`[width − border − 5·cell, width − border − 2·cell)`): near×near,
near-row×far-col, or far-row×near-col.  The near band is wider than the
true 3×3 centre, so the regions are not mirror images: the pixel
`border + cell + 1` lies in the near band while its mirror lies outside
the far range, and a pixel of the light ring is classified as centre
whenever the cell size exceeds one pixel. -/
theorem eye_center_characterization (img : SvgImage) :
    (∀ row col : ℤ, is_eye_center img row col = true ↔
      ((nearBand img row ∧ nearBand img col) ∨
       (nearBand img row ∧ farBand img col) ∨
       (farBand img row ∧ nearBand img col))) ∧
    (1 ≤ (img.box_size : ℤ) →
      nearBand img (borderPx img + (img.box_size : ℤ) + 1) ∧
      ¬ farBand img (img.pixel_size - (borderPx img + (img.box_size : ℤ) + 1))) ∧
    (2 ≤ (img.box_size : ℤ) →
      2 * borderPx img + 6 * (img.box_size : ℤ) + 1 < img.pixel_size →
      is_eye_center img (borderPx img + (img.box_size : ℤ) + 1)
        (borderPx img + 2 * (img.box_size : ℤ)) = true ∧
      inEyeCenter3x3 img (borderPx img + (img.box_size : ℤ) + 1)
        (borderPx img + 2 * (img.box_size : ℤ)) = false) := by
  refine ⟨?_, ?_, ?_⟩
  · intro row col
    simp only [is_eye_center, nearBand, farBand, borderPx, Bool.or_eq_true,
      Bool.and_eq_true, decide_eq_true_eq]
    set bw := (img.border : ℤ) * (img.box_size : ℤ) with hbw
    omega
  · intro h
    simp only [nearBand, farBand, borderPx]
    set bw := (img.border : ℤ) * (img.box_size : ℤ) with hbw
    omega
  · intro h hiw
    simp only [borderPx] at hiw
    simp only [is_eye_center, inEyeCenter3x3, borderPx, Bool.or_eq_true, Bool.and_eq_true,
      Bool.or_eq_false_iff, Bool.and_eq_false_iff, decide_eq_true_eq, decide_eq_false_iff_not]
    set bw := (img.border : ℤ) * (img.box_size : ℤ) with hbw
    omega

/-- C7 witness: for the 10-pixel-cell image, a light-ring pixel at
`(51, 60)` is classified as eye centre though outside the true 3×3. -/
theorem eye_center_characterization_witness :
    is_eye_center imgEx 51 60 = true ∧ inEyeCenter3x3 imgEx 51 60 = false :=
  (eye_center_characterization imgEx).2.2 (by decide) (by decide)

/-- C8 counterexample: the claim says the rotation angle lies in
[0°, 360°).  The source draws `random.randint(0, 360)`, whose upper
bound is inclusive: the draw 360 is admissible and produces a polygon
rotated by 360, outside the half-open interval. -/
theorem random_rotation_reaches_360 :
    rotationOf (randomSquareDrawrect stEx boxEx aIsolated 360) = some 360 ∧
    ¬ ((360 : ℕ) < 360) := by
  exact ⟨by decide, by norm_num⟩

/-- C8 amended: the rotation angle of the emitted polygon equals the
value drawn by `random.randint(0, 360)` and therefore lies in the closed
interval [0°, 360°] — 360 included. -/
theorem random_rotation_closed_range (st : DrawerState) (box : ℤ × ℤ)
    (a : ActiveWithNeighbors) (r : ℕ) (hr : r ≤ 360) (hme : a.me = true) :
    rotationOf (randomSquareDrawrect st box a r) = some r ∧ r ≤ 360 := by
  rcases a with ⟨me, N, S, E, W⟩
  simp only at hme
  subst hme
  exact ⟨rfl, hr⟩

/-- C8 witness: the draw 7 yields rotation 7. -/
theorem random_rotation_closed_range_witness :
    rotationOf (randomSquareDrawrect stEx boxEx aIsolated 7) = some 7 ∧ 7 ≤ 360 :=
  random_rotation_closed_range stEx boxEx aIsolated 7 (by norm_num) rfl

/-- C9: every family except the random-square one renders independently
of the random source — two invocations on identical coordinates,
neighbour context and style parameters yield identical primitives. -/
theorem render_deterministic (f : Family) (st : DrawerState) (box : ℤ × ℤ)
    (a : ActiveWithNeighbors) (r1 r2 : ℕ) (hf : f ≠ Family.randomSquare) :
    render f st box a r1 = render f st box a r2 := by
  cases f <;> first | rfl | exact absurd rfl hf

/-- C9 witness: the square family renders identically under two
different random draws. -/
theorem render_deterministic_witness :
    render Family.square stEx boxEx aIsolated 0 =
      render Family.square stEx boxEx aIsolated 1 :=
  render_deterministic Family.square stEx boxEx aIsolated 0 1 (by decide)

/-- C10: in the rounded-2, rounded-2-inverted-2, sharp-2-inverted-2,
sharp-rounded and sharp-2-rounded families, the isolated-cell rect
carries the hard-coded corner radii `rx = ry = 5`, independent of all
style parameters; and for cell sizes below 10 units, `box_half < 5`, so
the rounding exceeds the module's half-size. -/
theorem alone_rect_hardcoded_radius :
    (∀ (st : DrawerState) (box : ℤ × ℤ) (a : ActiveWithNeighbors),
      a.me = true → a.N = false → a.S = false → a.E = false → a.W = false →
      rounded2Drawrect st box a = some (aloneRoundedRect st box) ∧
      rounded2Inverted2Drawrect st box a = some (aloneRoundedRect st box) ∧
      sharped2Inverted2Drawrect st box a = some (aloneRoundedRect st box) ∧
      sharpedRoundedDrawrect st box a = some (aloneRoundedRect st box) ∧
      sharped2RoundedDrawrect st box a = some (aloneRoundedRect st box)) ∧
    (∀ (r : ℚ) (fc : Option String) (img : SvgImage),
      (img.box_size : ℚ) < 10 → 0 < r → r ≤ 1 →
      (initState r fc img).box_half < 5) := by
  constructor
  · rintro st box ⟨me, N, S, E, W⟩ hme hN hS hE hW
    simp only at hme hN hS hE hW
    subst hme; subst hN; subst hS; subst hE; subst hW
    exact ⟨rfl, rfl, rfl, rfl, rfl⟩
  · intro r fc img hb h0 h1
    simp only [initState]
    have hnn : (0 : ℚ) ≤ (img.box_size : ℚ) := by positivity
    nlinarith

/-- C10 witness: at the origin cell of the default state the rounded-2
family emits the `rx = ry = 5` rect, and an 8-pixel cell has half-size
4 < 5. -/
theorem alone_rect_hardcoded_radius_witness :
    rounded2Drawrect stEx boxEx aIsolated = some (aloneRoundedRect stEx boxEx) ∧
    (initState 1 none imgSmall).box_half < 5 :=
  ⟨(alone_rect_hardcoded_radius.1 stEx boxEx aIsolated rfl rfl rfl rfl rfl).1,
   alone_rect_hardcoded_radius.2 1 none imgSmall (by norm_num [imgSmall])
     (by norm_num) (by norm_num)⟩

end QRSvg
